import Mathlib

/-!
Verification development for the SafeOps-LogMiner security-posture
aggregation and report-generation core.

The JavaScript services are shallowly embedded as Lean functions:

* strings are Lean strings, with small helpers reproducing the JavaScript
  idioms actually used by the code (falsy-or defaulting, lower-casing,
  trimming);
* JSON-valued columns whose rows embed a findings array are modelled by an
  optional list of findings: the absent / non-array / unparseable cases of
  the source all give the empty list through the same fallback as the code;
* machine numbers are Nat / Int; the one place where IEEE NaN matters (the
  dashboard limit parameter) uses an option type whose none value stands
  for NaN;
* the PostgreSQL queries are modelled as pure functions over an explicit
  database value, with ORDER BY rendered as an insertion sort on the same
  key the query uses;
* the filesystem used by the report generator is a map from path to
  artifact value, written by explicit updates.
-/

/-- JavaScript falsy-or on an optional string field: an absent field and the
empty string both fall back to the default, mirroring the source's
frequent pattern (for example f.title or a literal default). -/
def jsOr (v : Option String) (d : String) : String :=
  match v with
  | none => d
  | some s => if s = "" then d else s

/-- Character-wise lower-casing, the embedding of the source's use of
toLowerCase on the ASCII severity and identifier tokens. -/
def jsToLower (s : String) : String :=
  String.mk (s.data.map Char.toLower)

/-- Remove leading and trailing whitespace from a character list. -/
def trimChars (l : List Char) : List Char :=
  ((l.dropWhile Char.isWhitespace).reverse.dropWhile Char.isWhitespace).reverse

/-- The embedding of the source's use of trim on strings. -/
def jsTrim (s : String) : String :=
  String.mk (trimChars s.data)

/-- A single security finding as embedded in a vulnerability-report row.
The structured mapping object is never inspected by the verified code
paths and is omitted; a structured evidence value is modelled by the
string it is serialized to. -/
structure Finding where
  rule_id : Option String := none
  title : Option String := none
  description : Option String := none
  severity : Option String := none
  recommendation : Option String := none
  evidence : Option String := none
deriving DecidableEq

/-- A vuln_reports row. The findings column is JSON: none models the
absent / non-array / unparseable cases (which the code collapses to the
empty list), some fs models a stored or successfully parsed array.
Timestamps are modelled as naturals ordered like the column values. -/
structure VulnRow where
  id : Nat
  pipeline : String
  run_id : String
  source : String := ""
  status : Option String := none
  findings : Option (List Finding) := none
  created_at : Nat
deriving DecidableEq

/-- parseFindings from the report generator: the findings field of a row,
with every failure case degraded to the empty list. -/
def parseFindings (r : VulnRow) : List Finding :=
  r.findings.getD []

/-- severityWeight from the report generator: lower-cases the (possibly
absent) severity and maps critical to 10, high to 7, medium to 4, low to
1, anything else to 1. -/
def severityWeight (sev : Option String) : Nat :=
  let s := jsToLower (sev.getD "")
  if s = "critical" then 10
  else if s = "high" then 7
  else if s = "medium" then 4
  else if s = "low" then 1
  else 1

/-- The stats block of a score object. -/
structure ScoreStats where
  totalFindings : Nat
  totalRisk : Nat
  anomalyCount : Nat
deriving DecidableEq

/-- The penalty block of a score object. -/
structure ScorePenalty where
  vulnPenalty : Nat
  anomalyPenalty : Nat
deriving DecidableEq

/-- The value returned by the report generator's computeScore. -/
structure ScoreObj where
  score : Int
  stats : ScoreStats
  penalty : ScorePenalty
deriving DecidableEq

/-- Total severity-weighted risk accumulated over the findings of a list of
vulnerability-report rows, as the computeScore loop does. -/
def totalRiskOf (rows : List VulnRow) : Nat :=
  (rows.map (fun r => ((parseFindings r).map (fun f => severityWeight f.severity)).sum)).sum

/-- Total number of findings over a list of rows, as the computeScore loop
counts them. -/
def totalFindingsOf (rows : List VulnRow) : Nat :=
  (rows.map (fun r => (parseFindings r).length)).sum

/-- computeScore from the report generator. The source's Math.round acts
on an integer value (all inputs are integral) and is therefore the
identity; the clamp is written exactly as in the source. -/
def computeScore (vulnRows : List VulnRow) (anomalyCount : Nat) : ScoreObj :=
  let totalRisk := totalRiskOf vulnRows
  let totalFindings := totalFindingsOf vulnRows
  let anomalyPenalty := min 30 (anomalyCount * 2)
  let vulnPenalty := min 80 (totalRisk * 2)
  let raw : Int := 100 - (vulnPenalty : Int) - (anomalyPenalty : Int)
  let score : Int := max 0 (min 100 raw)
  { score := score,
    stats := { totalFindings := totalFindings, totalRisk := totalRisk, anomalyCount := anomalyCount },
    penalty := { vulnPenalty := vulnPenalty, anomalyPenalty := anomalyPenalty } }

/-- Severity weight exactly as the specification's table words it:
critical 10, high 7, medium 4, low or any unknown severity 1 (severities
are compared case-insensitively throughout the spec). -/
def specSeverityWeight (sev : Option String) : Nat :=
  let s := jsToLower (sev.getD "")
  if s = "critical" then 10
  else if s = "high" then 7
  else if s = "medium" then 4
  else 1

/-- The specification's score formula, written from the spec's words over
a flat list of finding severities: clamp(0, 100, round(100 - min(80,
totalRisk*2) - min(30, anomalyCount*2))) with totalRisk the sum of
severity weights; round is the identity on these integral values. -/
def specScoreValue (sevs : List (Option String)) (anomalyCount : Nat) : Int :=
  let totalRisk := (sevs.map specSeverityWeight).sum
  max 0 (min 100 (100 - (min 80 (totalRisk * 2) : Nat) - (min 30 (anomalyCount * 2) : Nat) : Int))

/-- The flattened list of finding severities of a list of rows, in
normalizer order. -/
def flatSevs (rows : List VulnRow) : List (Option String) :=
  ((rows.map parseFindings).flatten).map (fun f => f.severity)

/-- The legacy computeScore of utils/score.js: subtracts 30 per critical,
20 per high, 10 per medium and 5 per any other finding (severity compared
case-sensitively against the exact strings), then 5 per anomaly, and
floors the result at 0. -/
def legacyFindingPenalty (v : Finding) : Nat :=
  if v.severity = some "critical" then 30
  else if v.severity = some "high" then 20
  else if v.severity = some "medium" then 10
  else 5

/-- computeScore from utils/score.js (the legacy scoring module). -/
def utilsComputeScore (vulns : List Finding) (anomalies : Nat) : Int :=
  let afterVulns : Int := 100 - ((vulns.map legacyFindingPenalty).sum : Nat)
  let afterAnoms : Int := afterVulns - (anomalies * 5 : Nat)
  max afterAnoms 0

/-- A flattened dashboard alert, one per finding, as built by
vulnRowsToAlerts in the dashboard API. -/
structure Alert where
  pipeline : String
  run_id : String
  rule_id : String
  title : String
  severity : String
  recommendation : String
  evidence : String
  created_at : Nat
  description : String
deriving DecidableEq

/-- severityWeight from the dashboard API: same table, with every
non-critical/high/medium severity (including low) falling through to 1. -/
def severityWeightDash (sev : String) : Nat :=
  let s := jsToLower sev
  if s = "critical" then 10
  else if s = "high" then 7
  else if s = "medium" then 4
  else 1

/-- The details block of the dashboard ScoreResult. -/
structure ScoreDetails where
  totalFindings : Nat
  totalRisk : Nat
  anomalyCount : Nat
  vulnPenalty : Nat
  anomalyPenalty : Nat
deriving DecidableEq

/-- The dashboard ScoreResult. -/
structure ScoreResult where
  value : Int
  details : ScoreDetails
deriving DecidableEq

/-- computeScoreFromAlerts from the dashboard API. -/
def computeScoreFromAlerts (alerts : List Alert) (anomalyCount : Nat) : ScoreResult :=
  let totalRisk := (alerts.map (fun a => severityWeightDash a.severity)).sum
  let vulnPenalty := min 80 (totalRisk * 2)
  let anomalyPenalty := min 30 (anomalyCount * 2)
  let raw : Int := 100 - (vulnPenalty : Int) - (anomalyPenalty : Int)
  let value : Int := max 0 (min 100 raw)
  { value := value,
    details := { totalFindings := alerts.length, totalRisk := totalRisk,
                 anomalyCount := anomalyCount, vulnPenalty := vulnPenalty,
                 anomalyPenalty := anomalyPenalty } }

/-- The two severity-weight tables agree pointwise. -/
theorem severityWeight_eq_spec (sev : Option String) :
    severityWeight sev = specSeverityWeight sev := by
  unfold severityWeight specSeverityWeight
  by_cases h1 : jsToLower (sev.getD "") = "critical" <;>
    by_cases h2 : jsToLower (sev.getD "") = "high" <;>
      by_cases h3 : jsToLower (sev.getD "") = "medium" <;>
        by_cases h4 : jsToLower (sev.getD "") = "low" <;>
          simp [h1, h2, h3, h4]

/-- Row-accumulated risk equals the flat sum over severities. -/
theorem totalRiskOf_eq_flat (rows : List VulnRow) :
    totalRiskOf rows = ((flatSevs rows).map severityWeight).sum := by
  unfold totalRiskOf flatSevs
  induction rows with
  | nil => simp
  | cons r rest ih => simp [ih, List.map_map]; rfl

example : (computeScore [] 0).score = 100 := by decide

/-- Closed form of the score component of computeScore. -/
theorem computeScore_score_eq (rows : List VulnRow) (a : Nat) :
    (computeScore rows a).score
      = max 0 (min 100 (100 - ((min 80 (totalRiskOf rows * 2) : Nat) : Int)
          - ((min 30 (a * 2) : Nat) : Int))) := rfl

/-- Total findings equals the length of the flattened severity list. -/
theorem totalFindingsOf_eq_flat (rows : List VulnRow) :
    totalFindingsOf rows = (flatSevs rows).length := by
  unfold totalFindingsOf flatSevs
  induction rows with
  | nil => simp
  | cons r rest ih => simp [ih]

/-- Row-accumulated risk as a sum over the flattened findings list. -/
theorem totalRiskOf_eq_flatten (rows : List VulnRow) :
    totalRiskOf rows
      = (((rows.map parseFindings).flatten).map (fun f => severityWeight f.severity)).sum := by
  rw [totalRiskOf_eq_flat]; unfold flatSevs; rw [List.map_map]; rfl

/-- A finding whose lower-cased severity is the critical token. -/
def isCriticalFinding (f : Finding) : Bool :=
  jsToLower (f.severity.getD "") = "critical"

/-- Number of critical findings across the flattened rows. -/
def criticalCount (rows : List VulnRow) : Nat :=
  (((rows.map parseFindings).flatten).filter isCriticalFinding).length

/-- Each critical finding contributes its full weight of 10 to the risk. -/
theorem risk_ge_ten_mul_critical (l : List Finding) :
    10 * (l.filter isCriticalFinding).length
      ≤ (l.map (fun f => severityWeight f.severity)).sum := by
  induction l with
  | nil => simp
  | cons f rest ih =>
    by_cases hf : isCriticalFinding f
    · have hw : severityWeight f.severity = 10 := by
        have hc : jsToLower (f.severity.getD "") = "critical" := by
          have := hf
          unfold isCriticalFinding at this
          exact of_decide_eq_true this
        unfold severityWeight
        simp [hc]
      simp only [List.filter_cons, hf, if_true, List.length_cons, List.map_cons,
        List.sum_cons, hw]
      omega
    · simp only [List.filter_cons, hf, if_false, List.map_cons, List.sum_cons]
      exact le_trans ih (Nat.le_add_left _ _)

/-- C1 (counterexample): the legacy scoring module utils/score.js also
exports a function named computeScore, and on a single critical finding
with zero anomalies it returns 70 while the specified formula gives 80,
so the claim is false for that implementation at this input. -/
theorem c1_counterexample :
    utilsComputeScore [{ severity := some "critical" }] 0 = 70 ∧
    specScoreValue [some "critical"] 0 = 80 ∧
    utilsComputeScore [{ severity := some "critical" }] 0
      ≠ specScoreValue [some "critical"] 0 := by decide

/-- C1 (amended): for every row sequence and anomaly count, the score of
the report generator's computeScore, and for every alert list the value
of the dashboard's computeScoreFromAlerts, equal the specified
clamp(0, 100, 100 - min(80, totalRisk*2) - min(30, anomalyCount*2))
formula with the 10/7/4/1 severity-weight table; the legacy
utils/score.js variant is excluded. -/
theorem c1_score_matches_spec_formula (rows : List VulnRow) (alerts : List Alert) (a : Nat) :
    (computeScore rows a).score = specScoreValue (flatSevs rows) a ∧
    (computeScoreFromAlerts alerts a).value
      = specScoreValue (alerts.map (fun x => some x.severity)) a := by
  have hw : severityWeight = specSeverityWeight := funext severityWeight_eq_spec
  constructor
  · have h : ((flatSevs rows).map specSeverityWeight).sum = totalRiskOf rows := by
      rw [totalRiskOf_eq_flat, hw]
    simp only [computeScore, specScoreValue, h]
  · have h2 : ((alerts.map (fun x => some x.severity)).map specSeverityWeight).sum
        = (alerts.map (fun x => severityWeightDash x.severity)).sum := by
      rw [List.map_map]; rfl
    simp only [computeScoreFromAlerts, specScoreValue, h2]

/-- C2: the computed score lies in [0, 100], and computeScore is a pure
function of the multiset of finding severities and the anomaly count:
any two row lists whose flattened severity sequences are permutations of
each other give the same full ScoreObj. -/
theorem c2_score_bounded_and_severity_multiset_determined
    (rows rows' : List VulnRow) (a : Nat)
    (h : (flatSevs rows).Perm (flatSevs rows')) :
    0 ≤ (computeScore rows a).score ∧ (computeScore rows a).score ≤ 100 ∧
    computeScore rows a = computeScore rows' a := by
  refine ⟨?_, ?_, ?_⟩
  · rw [computeScore_score_eq]; exact le_max_left 0 _
  · rw [computeScore_score_eq]
    exact max_le (by norm_num) (min_le_left _ _)
  · have hr : totalRiskOf rows = totalRiskOf rows' := by
      rw [totalRiskOf_eq_flat, totalRiskOf_eq_flat]
      exact (h.map severityWeight).sum_eq
    have hf : totalFindingsOf rows = totalFindingsOf rows' := by
      rw [totalFindingsOf_eq_flat, totalFindingsOf_eq_flat]
      exact h.length_eq
    simp only [computeScore, hr, hf]

/-- A sample report row with a high finding before a low one. -/
def rowHighLow : VulnRow :=
  { id := 1, pipeline := "p", run_id := "r1",
    findings := some [{ severity := some "high" }, { severity := some "low" }],
    created_at := 5 }

/-- The same findings in the opposite order, in a different row. -/
def rowLowHigh : VulnRow :=
  { id := 2, pipeline := "p", run_id := "r2",
    findings := some [{ severity := some "low" }, { severity := some "high" }],
    created_at := 6 }

/-- C2 (witness): concrete instantiation with reordered findings. -/
theorem c2_witness :
    0 ≤ (computeScore [rowHighLow] 3).score ∧
    (computeScore [rowHighLow] 3).score ≤ 100 ∧
    computeScore [rowHighLow] 3 = computeScore [rowLowHigh] 3 :=
  c2_score_bounded_and_severity_multiset_determined [rowHighLow] [rowLowHigh] 3 (by decide)

/-- C3: boundary behaviour of computeScore: the empty state scores 100;
any rows with at least 8 critical findings and no anomalies score
exactly 20 (the vulnerability penalty caps at 80); and at least 15
anomalies with no findings score exactly 70 (the anomaly penalty caps
at 30). -/
theorem c3_boundary_scores (rows : List VulnRow) (a : Nat)
    (hc : 8 ≤ criticalCount rows) (ha : 15 ≤ a) :
    (computeScore [] 0).score = 100 ∧
    (computeScore rows 0).score = 20 ∧
    (computeScore [] a).score = 70 := by
  refine ⟨by decide, ?_, ?_⟩
  · have h80 : 80 ≤ totalRiskOf rows := by
      have h1 := risk_ge_ten_mul_critical ((rows.map parseFindings).flatten)
      have h2 := totalRiskOf_eq_flatten rows
      unfold criticalCount at hc
      omega
    have hv : min 80 (totalRiskOf rows * 2) = 80 := by omega
    rw [computeScore_score_eq, hv]
    decide
  · have hv : min 30 (a * 2) = 30 := by omega
    rw [computeScore_score_eq, hv]
    have h0 : totalRiskOf [] = 0 := rfl
    rw [h0]
    decide

/-- A report row holding 8 critical findings. -/
def rowEightCritical : VulnRow :=
  { id := 1, pipeline := "p", run_id := "r",
    findings := some (List.replicate 8 { severity := some "critical" }),
    created_at := 1 }

/-- C3 (witness): 8 critical findings in one report and 15 anomalies. -/
theorem c3_witness :
    (computeScore [] 0).score = 100 ∧
    (computeScore [rowEightCritical] 0).score = 20 ∧
    (computeScore [] 15).score = 70 :=
  c3_boundary_scores [rowEightCritical] 15 (by decide) (by decide)

/-- JavaScript falsy-or against null: an absent or empty string becomes
null, as in the source's evidence field of the SARIF properties. -/
def jsOrNull (v : Option String) : Option String :=
  match v with
  | none => none
  | some s => if s = "" then none else some s

/-- One SARIF result as assembled by toSarif: ruleId, level, message.text
and the properties block (pipeline, recommendation, evidence; the
structured mapping object is never read back and is omitted). -/
structure SarifResult where
  ruleId : String
  level : String
  message : String
  pipeline : String
  recommendation : String
  evidence : Option String
deriving DecidableEq

/-- The severity-to-level mapping inside toSarif: the finding severity
defaulted to low, lower-cased; critical and high give error, medium
gives warning, everything else gives note. -/
def sarifLevel (sevField : Option String) : String :=
  let sev := jsToLower (jsOr sevField "low")
  if sev = "critical" ∨ sev = "high" then "error"
  else if sev = "medium" then "warning"
  else "note"

/-- The per-finding result constructed by the toSarif loop. -/
def sarifResultOf (pipelineId : String) (f : Finding) : SarifResult :=
  { ruleId := jsOr f.rule_id "SAFEOPS_RULE",
    level := sarifLevel f.severity,
    message := jsTrim (jsOr f.title "Finding" ++ " - " ++ jsOr f.description ""),
    pipeline := pipelineId,
    recommendation := jsOr f.recommendation "",
    evidence := jsOrNull f.evidence }

/-- The loop of dedupeSarifByRule with the seen set made explicit: skip a
result whose trimmed ruleId is empty or already seen, otherwise keep it
and record its trimmed ruleId. -/
def dedupeSarifAux : List SarifResult → List String → List SarifResult
  | [], _ => []
  | r :: rest, seen =>
    let key := jsTrim r.ruleId
    if key = "" then dedupeSarifAux rest seen
    else if key ∈ seen then dedupeSarifAux rest seen
    else r :: dedupeSarifAux rest (key :: seen)

/-- dedupeSarifByRule from the report generator. -/
def dedupeSarifByRule (results : List SarifResult) : List SarifResult :=
  dedupeSarifAux results []

/-- The SARIF document: version, the single tool driver name and the
deduplicated results of the single run. -/
structure SarifDoc where
  version : String
  toolName : String
  results : List SarifResult
deriving DecidableEq

/-- The raw (pre-deduplication) result list of toSarif, one result per
finding in normalizer order. -/
def rawSarifResults (pipelineId : String) (vulnRows : List VulnRow) : List SarifResult :=
  ((vulnRows.map parseFindings).flatten).map (sarifResultOf pipelineId)

/-- toSarif from the report generator. -/
def toSarif (pipelineId : String) (vulnRows : List VulnRow) : SarifDoc :=
  { version := "2.1.0", toolName := "SafeOps-LogMiner",
    results := dedupeSarifByRule (rawSarifResults pipelineId vulnRows) }

/-- A result of the legacy toSarif module: field values are copied from
the finding without defaulting or mapping. -/
structure LegacySarifResult where
  ruleId : Option String
  level : Option String
  message : Option String
deriving DecidableEq

/-- A rule entry of the legacy toSarif driver. -/
structure LegacySarifRule where
  id : Option String
  name : Option String
  shortDescription : Option String
deriving DecidableEq

/-- The document produced by the legacy toSarif module. -/
structure LegacySarifDoc where
  version : String
  toolName : String
  rules : List LegacySarifRule
  results : List LegacySarifResult
deriving DecidableEq

/-- The legacy toSarif variant: one rule and one result per finding, no
deduplication, and the result level is the finding severity verbatim. -/
def legacyToSarif (findings : List Finding) : LegacySarifDoc :=
  { version := "2.1.0", toolName := "SafeOps-LogMiner",
    rules := findings.map (fun f =>
      { id := f.rule_id, name := f.title, shortDescription := f.description }),
    results := findings.map (fun f =>
      { ruleId := f.rule_id, level := f.severity, message := f.description }) }

/-- The deduplicated list is a sublist of the raw result list. -/
theorem dedupeSarifAux_sublist (results : List SarifResult) (seen : List String) :
    (dedupeSarifAux results seen).Sublist results := by
  induction results generalizing seen with
  | nil => simp [dedupeSarifAux]
  | cons r rest ih =>
    unfold dedupeSarifAux
    by_cases h1 : jsTrim r.ruleId = ""
    · simp only [h1, if_true]
      exact (ih seen).cons r
    · by_cases h2 : jsTrim r.ruleId ∈ seen
      · simp only [h1, h2, if_false, if_true]
        exact (ih seen).cons r
      · simp only [h1, h2, if_false]
        exact (ih _).cons₂ r

/-- Every kept result has a non-empty trimmed ruleId. -/
theorem mem_dedupeSarifAux_key_ne (r : SarifResult) (results : List SarifResult)
    (seen : List String) (h : r ∈ dedupeSarifAux results seen) :
    jsTrim r.ruleId ≠ "" := by
  induction results generalizing seen with
  | nil => simp [dedupeSarifAux] at h
  | cons x rest ih =>
    unfold dedupeSarifAux at h
    by_cases h1 : jsTrim x.ruleId = ""
    · simp only [h1, if_true] at h
      exact ih seen h
    · by_cases h2 : jsTrim x.ruleId ∈ seen
      · simp only [h1, h2, if_false, if_true] at h
        exact ih seen h
      · simp only [h1, h2, if_false, List.mem_cons] at h
        rcases h with h | h
        · rw [h]; exact h1
        · exact ih _ h

/-- Keys already seen never reappear, and every key appears at most once
in the deduplicated output. -/
theorem dedupeSarifAux_filter_spec (results : List SarifResult) (seen : List String)
    (k : String) :
    (k ∈ seen →
      ((dedupeSarifAux results seen).filter (fun x => jsTrim x.ruleId == k)).length = 0) ∧
    ((dedupeSarifAux results seen).filter (fun x => jsTrim x.ruleId == k)).length ≤ 1 := by
  induction results generalizing seen with
  | nil => simp [dedupeSarifAux]
  | cons r rest ih =>
    unfold dedupeSarifAux
    by_cases h1 : jsTrim r.ruleId = ""
    · simp only [h1, if_true]
      exact ih seen
    · by_cases h2 : jsTrim r.ruleId ∈ seen
      · simp only [h1, h2, if_false, if_true]
        exact ih seen
      · simp only [h1, h2, if_false]
        by_cases hk : jsTrim r.ruleId = k
        · constructor
          · intro hks
            exact absurd (hk ▸ hks) h2
          · rw [List.filter_cons]
            simp only [hk, beq_self_eq_true, if_true, List.length_cons]
            have h0 := (ih (jsTrim r.ruleId :: seen)).1
              (by rw [hk]; exact List.mem_cons_self _ _)
            rw [hk] at h0
            omega
        · rw [List.filter_cons]
          simp only [beq_iff_eq, hk, if_false]
          constructor
          · intro hks
            exact (ih (jsTrim r.ruleId :: seen)).1 (List.mem_cons_of_mem _ hks)
          · exact (ih (jsTrim r.ruleId :: seen)).2

/-- For a key not yet seen, the first kept occurrence is the first raw
occurrence. -/
theorem dedupeSarifAux_find?_eq (results : List SarifResult) (seen : List String)
    (k : String) (hk : k ≠ "") (hseen : k ∉ seen) :
    (dedupeSarifAux results seen).find? (fun x => jsTrim x.ruleId == k)
      = results.find? (fun x => jsTrim x.ruleId == k) := by
  induction results generalizing seen with
  | nil => simp [dedupeSarifAux]
  | cons r rest ih =>
    unfold dedupeSarifAux
    by_cases h1 : jsTrim r.ruleId = ""
    · have hb : (("" : String) == k) = false :=
        beq_eq_false_iff_ne.mpr (fun hc => hk hc.symm)
      rw [List.find?_cons]
      simp only [h1, if_true, hb]
      exact ih seen hseen
    · by_cases h2 : jsTrim r.ruleId ∈ seen
      · have hb : (jsTrim r.ruleId == k) = false := by
          exact beq_eq_false_iff_ne.mpr (fun hc => hseen (hc ▸ h2))
        rw [List.find?_cons]
        simp only [h1, h2, if_false, if_true, hb]
        exact ih seen hseen
      · simp only [h1, h2, if_false]
        by_cases hmatch : jsTrim r.ruleId = k
        · have hb : (jsTrim r.ruleId == k) = true := by simp [hmatch]
          rw [List.find?_cons, List.find?_cons]
          simp only [hb]
        · have hb : (jsTrim r.ruleId == k) = false := by simp [hmatch]
          rw [List.find?_cons, List.find?_cons]
          simp only [hb]
          exact ih (jsTrim r.ruleId :: seen)
            (by
              intro hmem
              rcases List.mem_cons.mp hmem with h | h
              · exact hmatch h.symm
              · exact hseen h)

/-- The first of the two R1 findings of the deduplication scenario. -/
def findingR1first : Finding :=
  { rule_id := some "R1", title := some "T1", description := some "first message" }

/-- The second R1 finding, sharing the ruleId but not the message. -/
def findingR1second : Finding :=
  { rule_id := some "R1", title := some "T2", description := some "second message" }

/-- A report row carrying the two R1 findings in order. -/
def rowR1pair : VulnRow :=
  { id := 3, pipeline := "p", run_id := "r",
    findings := some [findingR1first, findingR1second], created_at := 9 }

/-- A finding with no rule identifier at all. -/
def findingNoRule : Finding := { severity := some "low" }

/-- A report row whose only finding has no rule identifier. -/
def rowNoRule : VulnRow :=
  { id := 4, pipeline := "p", run_id := "r", findings := some [findingNoRule],
    created_at := 2 }

/-- C4 (counterexample): a finding with a missing rule_id is not dropped:
toSarif substitutes the default ruleId SAFEOPS_RULE, so the result list
for a single such finding is non-empty, contrary to the claim. -/
theorem c4_counterexample :
    findingNoRule.rule_id = none ∧
    (toSarif "p" [rowNoRule]).results.length = 1 ∧
    (toSarif "p" [rowNoRule]).results.map (fun r => r.ruleId) = ["SAFEOPS_RULE"] := by
  decide

/-- C4 (amended): the SARIF document keeps at most one result per
distinct trimmed ruleId, the kept result for a key is the first raw
occurrence in normalizer order, every kept result has a non-empty
trimmed ruleId, and in the concrete two-R1-findings scenario exactly
one R1 result appears carrying the first-encountered message; findings
with an empty or missing rule_id are not dropped but appear under the
default ruleId SAFEOPS_RULE. -/
theorem c4_dedupe_first_wins (pid : String) (rows : List VulnRow) (k : String)
    (r : SarifResult) (hk : k ≠ "") (hr : r ∈ (toSarif pid rows).results) :
    ((toSarif pid rows).results.filter (fun x => jsTrim x.ruleId == k)).length ≤ 1 ∧
    (toSarif pid rows).results.find? (fun x => jsTrim x.ruleId == k)
      = (rawSarifResults pid rows).find? (fun x => jsTrim x.ruleId == k) ∧
    jsTrim r.ruleId ≠ "" ∧
    (toSarif "p" [rowR1pair]).results.filter (fun x => x.ruleId == "R1")
      = [sarifResultOf "p" findingR1first] := by
  refine ⟨?_, ?_, ?_, ?_⟩
  · exact (dedupeSarifAux_filter_spec (rawSarifResults pid rows) [] k).2
  · exact dedupeSarifAux_find?_eq (rawSarifResults pid rows) [] k hk (by simp)
  · exact mem_dedupeSarifAux_key_ne r (rawSarifResults pid rows) [] hr
  · decide

/-- C4 (witness): instantiated on the two-R1-findings scenario. -/
theorem c4_witness :
    ((toSarif "p" [rowR1pair]).results.filter (fun x => jsTrim x.ruleId == "R1")).length ≤ 1 ∧
    (toSarif "p" [rowR1pair]).results.find? (fun x => jsTrim x.ruleId == "R1")
      = (rawSarifResults "p" [rowR1pair]).find? (fun x => jsTrim x.ruleId == "R1") ∧
    jsTrim (sarifResultOf "p" findingR1first).ruleId ≠ "" ∧
    (toSarif "p" [rowR1pair]).results.filter (fun x => x.ruleId == "R1")
      = [sarifResultOf "p" findingR1first] :=
  c4_dedupe_first_wins "p" [rowR1pair] "R1" (sarifResultOf "p" findingR1first)
    (by decide) (by decide)

/-- The severity-to-level mapping as the specification words it:
case-insensitive on the severity, critical or high to error, medium to
warning, low or any unknown or missing severity to note. -/
def specSarifLevel (sev : Option String) : String :=
  let s := jsToLower (sev.getD "")
  if s = "critical" ∨ s = "high" then "error"
  else if s = "medium" then "warning"
  else "note"

/-- The code's level mapping agrees with the specification's. -/
theorem sarifLevel_eq_spec (sev : Option String) :
    sarifLevel sev = specSarifLevel sev := by
  cases sev with
  | none => decide
  | some s =>
    by_cases hs : s = ""
    · subst hs; decide
    · unfold sarifLevel specSarifLevel jsOr
      simp [hs]

/-- The level is always one of the three SARIF strings. -/
theorem sarifLevel_mem_three (sev : Option String) :
    sarifLevel sev = "error" ∨ sarifLevel sev = "warning" ∨ sarifLevel sev = "note" := by
  simp only [sarifLevel]
  split
  · exact Or.inl rfl
  · split
    · exact Or.inr (Or.inl rfl)
    · exact Or.inr (Or.inr rfl)

/-- C5 (counterexample): the legacy toSarif variant copies the severity
verbatim into the result level, so a critical finding yields level
critical, which is none of error, warning, note. -/
theorem c5_counterexample :
    (legacyToSarif [{ severity := some "critical" }]).results.map (fun r => r.level)
      = [some "critical"] ∧
    ("critical" ≠ "error" ∧ "critical" ≠ "warning" ∧ "critical" ≠ "note") := by decide

/-- C5 (amended): in the report generator's primary toSarif, every
per-finding result level follows the case-insensitive mapping (critical
or high to error, medium to warning, low or unknown or missing to note)
and every level in the output document is one of those three strings;
the legacy toSarif variant is excluded, since it copies the severity
into the level unmapped. -/
theorem c5_level_mapping (pid : String) (rows : List VulnRow) (r : SarifResult)
    (f : Finding) (hr : r ∈ (toSarif pid rows).results) :
    (sarifResultOf pid f).level = specSarifLevel f.severity ∧
    (r.level = "error" ∨ r.level = "warning" ∨ r.level = "note") := by
  constructor
  · exact sarifLevel_eq_spec f.severity
  · have hsub := dedupeSarifAux_sublist (rawSarifResults pid rows) []
    have hraw : r ∈ rawSarifResults pid rows := hsub.mem hr
    rcases List.mem_map.mp hraw with ⟨g, _, hg⟩
    rw [← hg]
    exact sarifLevel_mem_three g.severity

/-- C5 (witness): instantiated on the no-rule-id row. -/
theorem c5_witness :
    (sarifResultOf "p" findingNoRule).level = specSarifLevel findingNoRule.severity ∧
    ((sarifResultOf "p" findingNoRule).level = "error" ∨
      (sarifResultOf "p" findingNoRule).level = "warning" ∨
      (sarifResultOf "p" findingNoRule).level = "note") :=
  c5_level_mapping "p" [rowNoRule] (sarifResultOf "p" findingNoRule) findingNoRule
    (by decide)

/-- One character of the restricted identifier alphabet of the
safePipelineId regular expression: ASCII letters, digits, dot,
underscore and hyphen. -/
def isIdChar (c : Char) : Bool :=
  ('a' ≤ c && c ≤ 'z') || ('A' ≤ c && c ≤ 'Z') || ('0' ≤ c && c ≤ '9') ||
    c = '.' || c = '_' || c = '-'

/-- The identifier language of the regular expression in safePipelineId:
length 2 to 80 over the restricted alphabet. -/
def matchesIdPattern (s : String) : Bool :=
  2 ≤ s.length && s.length ≤ 80 && s.data.all isIdChar

/-- safePipelineId from the report generator: stringify-and-trim the raw
parameter, then accept it only if it matches the restricted pattern. -/
def safePipelineId (input : Option String) : Option String :=
  let v := jsTrim (input.getD "")
  if matchesIdPattern v then some v else none

/-- filePathFor from the report generator: the artifact path is the
reports directory joined with the identifier and the format extension;
it does not depend on the generation mode. -/
def filePathFor (reportsDir pipelineId ext : String) : String :=
  reportsDir ++ "/" ++ pipelineId ++ "." ++ ext

/-- Outcome of a report route: either the 400 rejection issued before
any filesystem path is built, or the handler proceeding with the
artifact path it constructed. -/
inductive RouteOutcome where
  | invalidId : RouteOutcome
  | servesPath : String → RouteOutcome
deriving DecidableEq

/-- The shared prologue of every report endpoint: validate the raw
pipelineId parameter with safePipelineId, reject with 400 before any
path construction on failure, and otherwise build the artifact path
with filePathFor. -/
def artifactRoute (reportsDir : String) (rawParam : Option String) (ext : String) :
    RouteOutcome :=
  match safePipelineId rawParam with
  | none => RouteOutcome.invalidId
  | some pid => RouteOutcome.servesPath (filePathFor reportsDir pid ext)

/-- C6 (counterexample): safePipelineId trims its input before matching,
so the string with a leading space is accepted although it is not in
the claimed exact language (the space is outside the alphabet). -/
theorem c6_counterexample :
    safePipelineId (some " demo") = some "demo" ∧
    matchesIdPattern " demo" = false := by decide

/-- C6 (amended): safePipelineId accepts exactly the inputs whose
whitespace-trimmed form is a 2-to-80-character string over ASCII
letters, digits, dot, underscore and hyphen (so whitespace padding
around a valid identifier is also accepted); every accepted identifier
itself is in that language and contains no path separator, every report
endpoint rejects an invalid identifier before building a path, the
concrete examples "../../etc", "" and the 200-character all-a string
are rejected while "demo-pipeline_01" is accepted. -/
theorem safePipelineId_some_eq (s : String) :
    safePipelineId (some s)
      = if matchesIdPattern (jsTrim s) = true then some (jsTrim s) else none := rfl

/-- An identifier in the restricted language contains no path separator. -/
theorem matchesIdPattern_no_slash (v : String) (hv : matchesIdPattern v = true)
    (hslash : '/' ∈ v.data) : False := by
  unfold matchesIdPattern at hv
  rw [Bool.and_eq_true, Bool.and_eq_true] at hv
  have hall := (List.all_eq_true.mp hv.2) '/' hslash
  exact absurd hall (by decide)

set_option maxRecDepth 4000 in
theorem c6_identifier_validation (s : String) (dir raw ext p : String)
    (hp : artifactRoute dir (some raw) ext = RouteOutcome.servesPath p) :
    ((safePipelineId (some s)).isSome ↔ matchesIdPattern (jsTrim s) = true) ∧
    (∀ v, safePipelineId (some s) = some v →
      matchesIdPattern v = true ∧ ('/' ∈ v.data → False)) ∧
    (∃ pid, matchesIdPattern pid = true ∧ p = filePathFor dir pid ext ∧
      ('/' ∈ pid.data → False)) ∧
    safePipelineId (some "../../etc") = none ∧
    safePipelineId (some "") = none ∧
    safePipelineId (some (String.mk (List.replicate 200 'a'))) = none ∧
    safePipelineId (some "demo-pipeline_01") = some "demo-pipeline_01" := by
  refine ⟨?_, ?_, ?_, by decide, by decide, by decide, by decide⟩
  · rw [safePipelineId_some_eq]
    by_cases h : matchesIdPattern (jsTrim s) = true
    · simp [h]
    · simp [h]
  · intro v hv
    rw [safePipelineId_some_eq] at hv
    by_cases h : matchesIdPattern (jsTrim s) = true
    · rw [if_pos h] at hv
      injection hv with he
      rw [← he]
      exact ⟨h, matchesIdPattern_no_slash _ h⟩
    · rw [if_neg h] at hv
      cases hv
  · unfold artifactRoute at hp
    cases hid : safePipelineId (some raw) with
    | none =>
      rw [hid] at hp
      exact absurd hp (by simp)
    | some pid =>
      rw [hid] at hp
      have hpat : matchesIdPattern pid = true := by
        rw [safePipelineId_some_eq] at hid
        by_cases h : matchesIdPattern (jsTrim raw) = true
        · rw [if_pos h] at hid
          injection hid with he
          rw [← he]
          exact h
        · rw [if_neg h] at hid
          cases hid
      have hp2 : RouteOutcome.servesPath (filePathFor dir pid ext)
          = RouteOutcome.servesPath p := hp
      injection hp2 with hpe
      exact ⟨pid, hpat, hpe.symm, matchesIdPattern_no_slash _ hpat⟩

/-- C6 (witness): the accepted demo identifier routed to its pdf path. -/
theorem c6_witness :
    ((safePipelineId (some "demo-pipeline_01")).isSome ↔
      matchesIdPattern (jsTrim "demo-pipeline_01") = true) ∧
    (∀ v, safePipelineId (some "demo-pipeline_01") = some v →
      matchesIdPattern v = true ∧ ('/' ∈ v.data → False)) ∧
    (∃ pid, matchesIdPattern pid = true ∧
      "reports/demo-pipeline_01.pdf" = filePathFor "reports" pid "pdf" ∧
      ('/' ∈ pid.data → False)) ∧
    safePipelineId (some "../../etc") = none ∧
    safePipelineId (some "") = none ∧
    safePipelineId (some (String.mk (List.replicate 200 'a'))) = none ∧
    safePipelineId (some "demo-pipeline_01") = some "demo-pipeline_01" :=
  c6_identifier_validation "demo-pipeline_01" "reports" "demo-pipeline_01" "pdf"
    "reports/demo-pipeline_01.pdf" (by decide)

/-- A fix_reports row (schema of migration 003). -/
structure FixRow where
  id : Nat
  pipeline_id : String := ""
  run_id : String := ""
  rule_id : Option String := none
  title : Option String := none
  yaml_patch : Option String := none
  created_at : Nat
deriving DecidableEq

/-- An anomaly_reports row, restricted to the columns the verified code
paths read. -/
structure AnomalyRow where
  pipeline_id : String
  run_id : String := ""
  ts : Nat := 0
  is_anomaly : Bool
deriving DecidableEq

/-- The relational state seen by the report generator. -/
structure ReportDb where
  vuln_reports : List VulnRow
  fix_reports : List FixRow
  anomaly_reports : List AnomalyRow
deriving DecidableEq

/-- The ORDER BY created_at DESC key on vulnerability rows. -/
def vulnByCreatedDesc (a b : VulnRow) : Prop := b.created_at ≤ a.created_at

instance : DecidableRel vulnByCreatedDesc := fun a b => Nat.decLe _ _

instance : IsTotal VulnRow vulnByCreatedDesc :=
  ⟨fun a b => Nat.le_total b.created_at a.created_at⟩

instance : IsTrans VulnRow vulnByCreatedDesc :=
  ⟨fun _ _ _ hab hbc => le_trans hbc hab⟩

/-- The ORDER BY created_at DESC key on fix rows. -/
def fixByCreatedDesc (a b : FixRow) : Prop := b.created_at ≤ a.created_at

instance : DecidableRel fixByCreatedDesc := fun a b => Nat.decLe _ _

/-- LIMIT chosen by the generation mode: 1 for latest, 50 otherwise. -/
def modeLimit (mode : String) : Nat := if mode = "latest" then 1 else 50

/-- The vuln_reports query of generateReport: rows of the pipeline,
newest first, up to the limit. -/
def queryVulnRows (db : ReportDb) (pipelineId : String) (limit : Nat) : List VulnRow :=
  (List.insertionSort vulnByCreatedDesc
    (db.vuln_reports.filter (fun r => r.pipeline == pipelineId))).take limit

/-- The fix_reports query of generateReport: the global latest 50 rows,
not filtered by pipeline. -/
def queryFixRows (db : ReportDb) : List FixRow :=
  (List.insertionSort fixByCreatedDesc db.fix_reports).take 50

/-- The anomaly count query of generateReport. -/
def queryAnomalyCount (db : ReportDb) (pipelineId : String) : Nat :=
  (db.anomaly_reports.filter (fun a => (a.pipeline_id == pipelineId) && a.is_anomaly)).length

/-- The view model handed to the HTML template. -/
structure HtmlModel where
  pipeline : String
  date : Nat
  score : Int
  stats : ScoreStats
  penalties : ScorePenalty
  vulns : List (VulnRow × List Finding)
  fixes : List FixRow
  anomalies : Nat
  mode : String
deriving DecidableEq

/-- The data the PDF drawing routine consumes. -/
structure PdfModel where
  pipelineId : String
  generated : Nat
  scoreObj : ScoreObj
  vulns : List VulnRow
  fixes : List FixRow
  anomalyCount : Nat
deriving DecidableEq

/-- A persisted report artifact: the semantic content of one of the
three files written by a generation call. -/
inductive Artifact where
  | html : HtmlModel → Artifact
  | pdf : PdfModel → Artifact
  | sarif : SarifDoc → Artifact
deriving DecidableEq

/-- The result of one generateReport call. -/
structure GenResult where
  scoreObj : ScoreObj
  htmlArtifact : HtmlModel
  pdfArtifact : PdfModel
  sarifArtifact : SarifDoc
  anomalyCount : Nat
deriving DecidableEq

/-- generateReport from the report generator, with the wall-clock
timestamp made an explicit parameter (it only enters the rendered
artifacts, never the score). -/
def generateReport (db : ReportDb) (pipelineId mode : String) (now : Nat) : GenResult :=
  let vulnRows := queryVulnRows db pipelineId (modeLimit mode)
  let fixRows := queryFixRows db
  let anomalyCount := queryAnomalyCount db pipelineId
  let scoreObj := computeScore vulnRows anomalyCount
  { scoreObj := scoreObj,
    htmlArtifact := { pipeline := pipelineId, date := now, score := scoreObj.score,
                      stats := scoreObj.stats, penalties := scoreObj.penalty,
                      vulns := vulnRows.map (fun v => (v, parseFindings v)),
                      fixes := fixRows, anomalies := anomalyCount, mode := mode },
    pdfArtifact := { pipelineId := pipelineId, generated := now, scoreObj := scoreObj,
                     vulns := vulnRows, fixes := fixRows, anomalyCount := anomalyCount },
    sarifArtifact := toSarif pipelineId vulnRows,
    anomalyCount := anomalyCount }

/-- The artifact store: a map from filesystem path to artifact. -/
def FileStore : Type := String → Option Artifact

/-- Overwriting write of one artifact at one path. -/
def writeFile (fs : FileStore) (p : String) (a : Artifact) : FileStore :=
  fun q => if q = p then some a else fs q

/-- The store with no artifact generated yet. -/
def emptyStore : FileStore := fun _ => none

/-- One generation call including its three filesystem writes, in the
order of the source: html, then pdf, then sarif; all three paths come
from filePathFor and depend only on the pipeline id and extension. -/
def runGenerate (reportsDir : String) (fs : FileStore) (db : ReportDb)
    (pipelineId mode : String) (now : Nat) : GenResult × FileStore :=
  let g := generateReport db pipelineId mode now
  let fs1 := writeFile fs (filePathFor reportsDir pipelineId "html") (Artifact.html g.htmlArtifact)
  let fs2 := writeFile fs1 (filePathFor reportsDir pipelineId "pdf") (Artifact.pdf g.pdfArtifact)
  let fs3 := writeFile fs2 (filePathFor reportsDir pipelineId "sarif") (Artifact.sarif g.sarifArtifact)
  (g, fs3)

/-- Artifact paths for the same pipeline and directory but different
extensions are different strings. -/
theorem filePathFor_ext_ne (dir pid : String) (e1 e2 : String) (h : e1 ≠ e2) :
    filePathFor dir pid e1 ≠ filePathFor dir pid e2 := by
  unfold filePathFor
  intro hEq
  apply h
  have hd := congrArg String.data hEq
  rw [String.data_append, String.data_append] at hd
  exact String.ext (List.append_cancel_left hd)

/-- Reading back the path just written yields the written artifact. -/
theorem writeFile_lookup_eq (fs : FileStore) (p : String) (a : Artifact) :
    writeFile fs p a p = some a := by simp [writeFile]

/-- Reading any other path is unaffected by a write. -/
theorem writeFile_lookup_ne (fs : FileStore) (p q : String) (a : Artifact)
    (h : q ≠ p) : writeFile fs p a q = fs q := by simp [writeFile, h]

/-- With at least one matching row, the latest-mode query returns exactly
one row. -/
theorem queryVulnRows_latest_length (db : ReportDb) (pid : String)
    (hexists : ∃ r ∈ db.vuln_reports, r.pipeline = pid) :
    (queryVulnRows db pid 1).length = 1 := by
  unfold queryVulnRows
  rw [List.length_take]
  rcases hexists with ⟨r0, hr0, hp0⟩
  have hmem : r0 ∈ List.insertionSort vulnByCreatedDesc
      (db.vuln_reports.filter (fun r => r.pipeline == pid)) :=
    (List.perm_insertionSort _ _).mem_iff.mpr
      (List.mem_filter.mpr ⟨hr0, beq_iff_eq.mpr hp0⟩)
  exact min_eq_left (List.length_pos_of_mem hmem)

/-- The row returned by the latest-mode query has a created_at no older
than any matching row of the store. -/
theorem queryVulnRows_latest_max (db : ReportDb) (pid : String) (r : VulnRow)
    (hr : r ∈ queryVulnRows db pid 1) (r' : VulnRow) (hr' : r' ∈ db.vuln_reports)
    (hp : r'.pipeline = pid) : r'.created_at ≤ r.created_at := by
  unfold queryVulnRows at hr
  have hsorted : (List.insertionSort vulnByCreatedDesc
      (db.vuln_reports.filter (fun x => x.pipeline == pid))).Sorted vulnByCreatedDesc :=
    List.sorted_insertionSort _ _
  have hmem' : r' ∈ List.insertionSort vulnByCreatedDesc
      (db.vuln_reports.filter (fun x => x.pipeline == pid)) :=
    (List.perm_insertionSort _ _).mem_iff.mpr
      (List.mem_filter.mpr ⟨hr', beq_iff_eq.mpr hp⟩)
  cases hl : List.insertionSort vulnByCreatedDesc
      (db.vuln_reports.filter (fun x => x.pipeline == pid)) with
  | nil =>
    rw [hl] at hmem'
    cases hmem'
  | cons x xs =>
    rw [hl] at hr hmem' hsorted
    have hx : r = x := by
      simp only [List.take_succ_cons, List.take_zero] at hr
      simpa using hr
    subst hx
    rcases List.mem_cons.mp hmem' with he | ht
    · rw [he]
    · exact (List.sorted_cons.mp hsorted).1 r' ht

/-- C7: latest mode feeds exactly one row, the most recent matching one;
artifact paths ignore the mode, so generating latest then all leaves the
all-mode artifacts at the three paths; and the score object of a
generation is independent of the wall-clock timestamp, so repeated
identical generations give identical score and stat values. -/
theorem c7_mode_rows_and_last_write_wins (db : ReportDb) (dir pid : String)
    (fs : FileStore) (t1 t2 : Nat)
    (hexists : ∃ r ∈ db.vuln_reports, r.pipeline = pid) :
    modeLimit "latest" = 1 ∧ modeLimit "all" = 50 ∧
    (queryVulnRows db pid (modeLimit "latest")).length = 1 ∧
    (∀ r ∈ queryVulnRows db pid (modeLimit "latest"), ∀ r' ∈ db.vuln_reports,
      r'.pipeline = pid → r'.created_at ≤ r.created_at) ∧
    ((runGenerate dir (runGenerate dir fs db pid "latest" t1).2 db pid "all" t2).2
        (filePathFor dir pid "html")
      = some (Artifact.html (generateReport db pid "all" t2).htmlArtifact)) ∧
    ((runGenerate dir (runGenerate dir fs db pid "latest" t1).2 db pid "all" t2).2
        (filePathFor dir pid "pdf")
      = some (Artifact.pdf (generateReport db pid "all" t2).pdfArtifact)) ∧
    ((runGenerate dir (runGenerate dir fs db pid "latest" t1).2 db pid "all" t2).2
        (filePathFor dir pid "sarif")
      = some (Artifact.sarif (generateReport db pid "all" t2).sarifArtifact)) ∧
    (generateReport db pid "latest" t1).scoreObj
      = (generateReport db pid "latest" t2).scoreObj ∧
    (generateReport db pid "all" t1).scoreObj
      = (generateReport db pid "all" t2).scoreObj := by
  refine ⟨rfl, rfl, queryVulnRows_latest_length db pid hexists, ?_, ?_, ?_, ?_, rfl, rfl⟩
  · intro r hr r' hr' hp
    exact queryVulnRows_latest_max db pid r hr r' hr' hp
  · simp only [runGenerate]
    rw [writeFile_lookup_ne _ _ _ _ (filePathFor_ext_ne dir pid "html" "sarif" (by decide)),
      writeFile_lookup_ne _ _ _ _ (filePathFor_ext_ne dir pid "html" "pdf" (by decide)),
      writeFile_lookup_eq]
  · simp only [runGenerate]
    rw [writeFile_lookup_ne _ _ _ _ (filePathFor_ext_ne dir pid "pdf" "sarif" (by decide)),
      writeFile_lookup_eq]
  · simp only [runGenerate]
    rw [writeFile_lookup_eq]

/-- The one-row database used to instantiate the generation claims. -/
def dbC7 : ReportDb :=
  { vuln_reports := [rowHighLow], fix_reports := [], anomaly_reports := [] }

/-- C7 (witness): instantiated on the one-row database. -/
theorem c7_witness :
    modeLimit "latest" = 1 ∧ modeLimit "all" = 50 ∧
    (queryVulnRows dbC7 "p" (modeLimit "latest")).length = 1 ∧
    (∀ r ∈ queryVulnRows dbC7 "p" (modeLimit "latest"), ∀ r' ∈ dbC7.vuln_reports,
      r'.pipeline = "p" → r'.created_at ≤ r.created_at) ∧
    ((runGenerate "reports" (runGenerate "reports" emptyStore dbC7 "p" "latest" 1).2
        dbC7 "p" "all" 2).2 (filePathFor "reports" "p" "html")
      = some (Artifact.html (generateReport dbC7 "p" "all" 2).htmlArtifact)) ∧
    ((runGenerate "reports" (runGenerate "reports" emptyStore dbC7 "p" "latest" 1).2
        dbC7 "p" "all" 2).2 (filePathFor "reports" "p" "pdf")
      = some (Artifact.pdf (generateReport dbC7 "p" "all" 2).pdfArtifact)) ∧
    ((runGenerate "reports" (runGenerate "reports" emptyStore dbC7 "p" "latest" 1).2
        dbC7 "p" "all" 2).2 (filePathFor "reports" "p" "sarif")
      = some (Artifact.sarif (generateReport dbC7 "p" "all" 2).sarifArtifact)) ∧
    (generateReport dbC7 "p" "latest" 1).scoreObj
      = (generateReport dbC7 "p" "latest" 2).scoreObj ∧
    (generateReport dbC7 "p" "all" 1).scoreObj
      = (generateReport dbC7 "p" "all" 2).scoreObj :=
  c7_mode_rows_and_last_write_wins dbC7 "reports" "p" emptyStore 1 2 (by decide)

/-- A pipeline_runs row. The SQL float severity_score (risk 0..100) is
modelled as an integer risk value; none of the verified properties
depend on fractional risks. -/
structure RunRow where
  pipeline_id : String
  run_id : String
  ts : Nat
  severity_score : Int
deriving DecidableEq

/-- The relational state seen by the dashboard API; a missing
fix_reports relation (undefined_table, error 42P01) is modelled by
none and degrades to an empty fixes list. -/
structure DashDb where
  pipeline_runs : List RunRow
  vuln_reports : List VulnRow
  anomaly_reports : List AnomalyRow
  fix_reports : Option (List FixRow)
deriving DecidableEq

/-- The raw query parameters of GET /dashboard; none is an absent
parameter. -/
structure DashParams where
  pipeline : Option String := none
  severity : Option String := none
  q : Option String := none
  limit : Option String := none
deriving DecidableEq

/-- normSeverity from the dashboard API: lower-case, trim, and keep the
value only if it is one of the four known severities. -/
def normSeverity (s : String) : Option String :=
  let x := jsTrim (jsToLower s)
  if x ∈ (["critical", "high", "medium", "low"] : List String) then some x else none

/-- The pipeline filter resolution of the route: an absent, empty or
"all" parameter selects no pipeline. -/
def dashPipeline (p : Option String) : Option String :=
  match p with
  | none => none
  | some s => if s = "" then none else if s = "all" then none else some s

/-- The severity filter resolution of the route: an absent, empty or
"all" parameter gives no filter, anything else goes through
normSeverity. -/
def dashSeverity (p : Option String) : Option String :=
  match p with
  | none => none
  | some s => if s = "" then none else if s = "all" then none else normSeverity s

/-- The trimmed free-text query parameter. -/
def dashQ (p : Option String) : String := jsTrim (p.getD "")

/-- Decimal digits accumulated to a natural number. -/
def digitsToNat (l : List Char) : Nat :=
  l.foldl (fun acc c => acc * 10 + (c.toNat - 48)) 0

/-- An unsigned decimal numeral with an optional fraction part, as a
rational. Anything else is NaN (none); the parts of the JavaScript
Number grammar this service never receives (exponents, hex, Infinity)
are outside the model and also map to NaN. -/
def parseUnsigned (l : List Char) : Option ℚ :=
  match l.splitOn '.' with
  | [ip] => if !ip.isEmpty && ip.all Char.isDigit then some (digitsToNat ip) else none
  | [ip, fp] =>
    if (!ip.isEmpty || !fp.isEmpty) && ip.all Char.isDigit && fp.all Char.isDigit then
      some ((digitsToNat ip : ℚ) + (digitsToNat fp : ℚ) / ((10 : ℚ) ^ fp.length))
    else none
  | _ => none

/-- The JavaScript Number conversion of a string: whitespace-trimmed,
empty means 0, optional sign, decimal digits with optional fraction;
everything else is NaN, modelled as none. -/
def jsNumber (s : String) : Option ℚ :=
  match trimChars s.data with
  | [] => some 0
  | '+' :: rest => parseUnsigned rest
  | '-' :: rest => (parseUnsigned rest).map (fun q => -q)
  | l => parseUnsigned l

/-- Math.max with IEEE NaN propagation: NaN in, NaN out. -/
def jsMax (a b : Option ℚ) : Option ℚ :=
  match a, b with
  | some x, some y => some (max x y)
  | _, _ => none

/-- Math.min with IEEE NaN propagation: NaN in, NaN out. -/
def jsMin (a b : Option ℚ) : Option ℚ :=
  match a, b with
  | some x, some y => some (min x y)
  | _, _ => none

/-- The limit computation of GET /dashboard: Number(limit or 20) pushed
through Math.min(Math.max(.., 1), 200); a NaN survives the clamp
unchanged. -/
def dashLimit (p : Option String) : Option ℚ :=
  let n : Option ℚ :=
    match p with
    | none => some 20
    | some s => if s = "" then some 20 else jsNumber s
  jsMin (jsMax n (some 1)) (some 200)

/-- The LIMIT parameter binding: PostgreSQL coerces the textual
parameter to bigint and rejects anything that is not a non-negative
integer, in particular the NaN the driver serializes, failing the
query. -/
def pgLimitArg (l : Option ℚ) : Option Nat :=
  match l with
  | none => none
  | some q => if q.den = 1 ∧ 0 ≤ q.num then some q.num.toNat else none

/-- Whether the needle occurs at the start of the haystack. -/
def charsStartWith : List Char → List Char → Bool
  | [], _ => true
  | _ :: _, [] => false
  | c :: cs, d :: ds => c = d && charsStartWith cs ds

/-- Whether the needle occurs anywhere in the haystack. -/
def charsContain (needle : List Char) : List Char → Bool
  | [] => needle.isEmpty
  | d :: ds => charsStartWith needle (d :: ds) || charsContain needle ds

/-- Case-insensitive substring test: the ILIKE comparison with
surrounding wildcards. -/
def stringContainsCI (hay needle : String) : Bool :=
  charsContain (jsToLower needle).data (jsToLower hay).data

/-- The text of an optional column for the ILIKE search. -/
def optText (v : Option String) : String := v.getD ""

/-- A stable text rendering of one finding, standing in for its slice of
the findings::text cast used by the search query. -/
def findingText (f : Finding) : String :=
  optText f.rule_id ++ " " ++ optText f.title ++ " " ++ optText f.description ++ " " ++
    optText f.severity ++ " " ++ optText f.recommendation ++ " " ++ optText f.evidence

/-- The text rendering of the findings column of a row. -/
def findingsColumnText (r : VulnRow) : String :=
  ((parseFindings r).map findingText).foldl (fun acc t => acc ++ t ++ " ") ""

/-- The WHERE clause of the dashboard vuln_reports query: optional
pipeline equality plus the optional case-insensitive substring search
over pipeline, run_id, status and the findings text. -/
def dashVulnRowMatches (pipeline : Option String) (q : String) (r : VulnRow) : Bool :=
  (match pipeline with
   | none => true
   | some pid => r.pipeline == pid) &&
  (if q = "" then true
   else stringContainsCI r.pipeline q || stringContainsCI r.run_id q ||
     stringContainsCI (optText r.status) q || stringContainsCI (findingsColumnText r) q)

/-- The dashboard vuln_reports query: filtered rows, newest first, up to
the bound limit; a NaN (or non-integral) limit fails the query. -/
def queryVulnRowsDash (db : DashDb) (pipeline : Option String) (q : String)
    (limit : Option ℚ) : Except String (List VulnRow) :=
  match pgLimitArg limit with
  | none => Except.error "invalid input syntax for type bigint"
  | some n => Except.ok ((List.insertionSort vulnByCreatedDesc
      (db.vuln_reports.filter (dashVulnRowMatches pipeline q))).take n)

/-- One dashboard alert built from a finding of a row, as
vulnRowsToAlerts does (structured evidence values appear here through
the string they are serialized to). -/
def alertOf (r : VulnRow) (f : Finding) : Alert :=
  { pipeline := r.pipeline, run_id := r.run_id,
    rule_id := jsOr f.rule_id "SAFEOPS_RULE",
    title := jsOr f.title (jsOr f.rule_id "Finding"),
    severity := jsToLower (jsOr f.severity "low"),
    recommendation := jsOr f.recommendation "",
    evidence := jsOr f.evidence "",
    created_at := r.created_at,
    description := jsOr f.description "" }

/-- The newest-first sort key of the alerts array. -/
def alertByCreatedDesc (a b : Alert) : Prop := b.created_at ≤ a.created_at

instance : DecidableRel alertByCreatedDesc := fun a b => Nat.decLe _ _

/-- vulnRowsToAlerts from the dashboard API: flatten every finding of
every row to an alert, then sort newest first. -/
def vulnRowsToAlerts (rows : List VulnRow) : List Alert :=
  List.insertionSort alertByCreatedDesc
    ((rows.map (fun r => (parseFindings r).map (alertOf r))).flatten)

/-- The ORDER BY pipeline_id ascending key for the pipeline list. -/
def stringLe (a b : String) : Prop := ¬ b < a

instance : DecidableRel stringLe := fun a b => instDecidableNot

/-- The seen-set pass keeping the first occurrence of each string. -/
def distinctStrings : List String → List String → List String
  | [], _ => []
  | s :: rest, seen =>
    if s ∈ seen then distinctStrings rest seen
    else s :: distinctStrings rest (s :: seen)

/-- SELECT DISTINCT, ordered ascending. -/
def sortedDistinct (l : List String) : List String :=
  distinctStrings (List.insertionSort stringLe l) []

/-- The pipeline list of the dashboard: the distinct pipeline ids of
pipeline_runs, falling back to those of vuln_reports when no run
metadata exists yet. -/
def dashPipelines (db : DashDb) : List String :=
  let fromRuns := sortedDistinct (db.pipeline_runs.map (fun r => r.pipeline_id))
  if fromRuns = [] then sortedDistinct (db.vuln_reports.map (fun r => r.pipeline))
  else fromRuns

/-- The DISTINCT ON (pipeline_id) ... ORDER BY pipeline_id, ts DESC
ordering key. -/
def runDistinctOrder (a b : RunRow) : Prop :=
  a.pipeline_id < b.pipeline_id ∨ (a.pipeline_id = b.pipeline_id ∧ b.ts ≤ a.ts)

instance : DecidableRel runDistinctOrder := fun a b =>
  inferInstanceAs (Decidable (a.pipeline_id < b.pipeline_id ∨
    (a.pipeline_id = b.pipeline_id ∧ b.ts ≤ a.ts)))

/-- The seen-set pass keeping the first row of each pipeline_id. -/
def distinctRunRows : List RunRow → List String → List RunRow
  | [], _ => []
  | r :: rest, seen =>
    if r.pipeline_id ∈ seen then distinctRunRows rest seen
    else r :: distinctRunRows rest (r.pipeline_id :: seen)

/-- One per-pipeline score card entry. -/
structure PipelineScore where
  pipeline_id : String
  score : Int
  ts : Nat
  risk : Int
deriving DecidableEq

/-- The pipelineScores component: the latest run row per pipeline, its
severity_score read as risk and flipped into the clamped security
score 100 - risk. It reads only pipeline_runs. -/
def pipelineScoresOf (db : DashDb) : List PipelineScore :=
  (distinctRunRows (List.insertionSort runDistinctOrder db.pipeline_runs) []).map
    (fun r =>
      { pipeline_id := r.pipeline_id,
        score := max 0 (min 100 (100 - r.severity_score)),
        ts := r.ts, risk := r.severity_score })

/-- The newest-first sort key of the timeline query. -/
def runByTsDesc (a b : RunRow) : Prop := b.ts ≤ a.ts

instance : DecidableRel runByTsDesc := fun a b => Nat.decLe _ _

/-- One charted timeline point. -/
structure TimelinePoint where
  time : Nat
  pipeline_id : String
  run_id : String
  severity_score : Int
  score : Int
deriving DecidableEq

/-- The timeline: the newest 25 run rows (of the selected pipeline, or
global), reversed to oldest-first for charting. -/
def timelineOf (db : DashDb) (pipeline : Option String) : List TimelinePoint :=
  let rows := (List.insertionSort runByTsDesc
    (db.pipeline_runs.filter (fun r =>
      match pipeline with
      | none => true
      | some pid => r.pipeline_id == pid))).take 25
  rows.reverse.map (fun r =>
    { time := r.ts, pipeline_id := r.pipeline_id, run_id := r.run_id,
      severity_score := r.severity_score,
      score := max 0 (min 100 (100 - r.severity_score)) })

/-- The anomaly count: only computed when a single pipeline is
selected, else 0. -/
def dashAnomalyCount (db : DashDb) (pipeline : Option String) : Nat :=
  match pipeline with
  | none => 0
  | some pid =>
    (db.anomaly_reports.filter (fun a => (a.pipeline_id == pid) && a.is_anomaly)).length

/-- The fixes lookup: a missing relation degrades to the empty list,
otherwise the latest 20 rows, optionally filtered by pipeline. -/
def dashFixes (db : DashDb) (pipeline : Option String) : List FixRow :=
  match db.fix_reports with
  | none => []
  | some rows =>
    (List.insertionSort fixByCreatedDesc (rows.filter (fun f =>
      match pipeline with
      | none => true
      | some pid => f.pipeline_id == pid))).take 20

/-- A vuln_reports row as echoed in the response, its findings coerced
to an array. -/
structure VulnView where
  id : Nat
  pipeline : String
  run_id : String
  source : String
  status : Option String
  created_at : Nat
  findings : List Finding
deriving DecidableEq

/-- The response echo of one row. -/
def vulnViewOf (v : VulnRow) : VulnView :=
  { id := v.id, pipeline := v.pipeline, run_id := v.run_id, source := v.source,
    status := v.status, created_at := v.created_at, findings := parseFindings v }

/-- The report links block of the response. -/
structure ReportLinks where
  generate : String
  pdf : String
  html : String
  sarif : String
  generate_public : String
  pdf_public : String
  html_public : String
  sarif_public : String
deriving DecidableEq

/-- The default in-cluster report generator base URL. -/
def reportBaseDocker : String := "http://report-generator:3006"

/-- The default browser-facing report generator base URL. -/
def reportBasePublic : String := "http://localhost:3006"

/-- The report path of a pipeline on a base URL. -/
def linksAt (base pipeline : String) : String := base ++ "/report/" ++ pipeline

/-- reportLinksFor from the dashboard API: null when no pipeline is
selected. -/
def reportLinksFor (pipeline : Option String) : Option ReportLinks :=
  match pipeline with
  | none => none
  | some p => some
    { generate := linksAt reportBaseDocker p,
      pdf := linksAt reportBaseDocker p ++ "/pdf",
      html := linksAt reportBaseDocker p ++ "/html",
      sarif := linksAt reportBaseDocker p ++ "/sarif",
      generate_public := linksAt reportBasePublic p,
      pdf_public := linksAt reportBasePublic p ++ "/pdf",
      html_public := linksAt reportBasePublic p ++ "/html",
      sarif_public := linksAt reportBasePublic p ++ "/sarif" }

/-- The meta block of the response, echoing the normalized filters. -/
structure DashMeta where
  pipeline : Option String
  severity : Option String
  q : String
  limit : Option ℚ
deriving DecidableEq

/-- The GET /dashboard response payload. -/
structure DashView where
  meta : DashMeta
  score : ScoreResult
  pipelines : List String
  pipelineScores : List PipelineScore
  timeline : List TimelinePoint
  vulns : List VulnView
  fixes : List FixRow
  anomalies : List (String × Nat)
  alerts : List Alert
  reportLinks : Option ReportLinks
deriving DecidableEq

/-- The dashboard route outcome: a 200 payload or the catch-all 500
with its detail string; the route has no input-validation rejection
path. -/
inductive DashResponse where
  | ok : DashView → DashResponse
  | serverError : String → DashResponse
deriving DecidableEq

/-- The severity filter applied at alert level, after flattening. -/
def applySeverityFilter (severity : Option String) (alerts : List Alert) : List Alert :=
  match severity with
  | none => alerts
  | some sv => alerts.filter (fun a => a.severity == sv)

/-- GET /dashboard. Every failure of the underlying queries lands in
the catch-all 500 handler; in this model only the limit-carrying
vuln_reports query can fail. -/
def dashboardHandler (db : DashDb) (params : DashParams) : DashResponse :=
  let pipeline := dashPipeline params.pipeline
  let severity := dashSeverity params.severity
  let q := dashQ params.q
  let limit := dashLimit params.limit
  match queryVulnRowsDash db pipeline q limit with
  | Except.error e => DashResponse.serverError e
  | Except.ok vulnRows =>
    let alertsAll := vulnRowsToAlerts vulnRows
    let alerts := applySeverityFilter severity alertsAll
    let anomalyCount := dashAnomalyCount db pipeline
    DashResponse.ok
      { meta := { pipeline := pipeline, severity := severity, q := q, limit := limit },
        score := computeScoreFromAlerts alerts anomalyCount,
        pipelines := dashPipelines db,
        pipelineScores := pipelineScoresOf db,
        timeline := timelineOf db pipeline,
        vulns := vulnRows.map vulnViewOf,
        fixes := dashFixes db pipeline,
        anomalies := (match pipeline with
          | some p => [(p, anomalyCount)]
          | none => []),
        alerts := alerts,
        reportLinks := reportLinksFor pipeline }

/-- On a 200 response, the score is recomputed from the filtered alerts
plus the anomaly count, the alerts are the flattened list with the
severity filter applied after extraction, and the pipelineScores come
from pipeline_runs alone. -/
theorem dashboard_ok_components (db : DashDb) (params : DashParams) (view : DashView)
    (h : dashboardHandler db params = DashResponse.ok view) :
    view.score = computeScoreFromAlerts view.alerts
      (dashAnomalyCount db (dashPipeline params.pipeline)) ∧
    (∃ rows, queryVulnRowsDash db (dashPipeline params.pipeline) (dashQ params.q)
        (dashLimit params.limit) = Except.ok rows ∧
      view.alerts = applySeverityFilter (dashSeverity params.severity)
        (vulnRowsToAlerts rows)) ∧
    view.pipelineScores = pipelineScoresOf db := by
  unfold dashboardHandler at h
  dsimp only at h
  split at h
  · cases h
  · next vulnRows heq =>
    injection h with hv
    rw [← hv]
    exact ⟨rfl, ⟨vulnRows, heq, rfl⟩, rfl⟩

/-- Requests whose normalized filters agree get the same response. -/
theorem dashboardHandler_congr (db : DashDb) (p1 p2 : DashParams)
    (hp : dashPipeline p1.pipeline = dashPipeline p2.pipeline)
    (hs : dashSeverity p1.severity = dashSeverity p2.severity)
    (hq : dashQ p1.q = dashQ p2.q)
    (hl : dashLimit p1.limit = dashLimit p2.limit) :
    dashboardHandler db p1 = dashboardHandler db p2 := by
  unfold dashboardHandler
  rw [hp, hs, hq, hl]

/-- A failing vuln_reports query surfaces as the catch-all 500. -/
theorem dashboardHandler_error (db : DashDb) (params : DashParams) (e : String)
    (h : queryVulnRowsDash db (dashPipeline params.pipeline) (dashQ params.q)
      (dashLimit params.limit) = Except.error e) :
    dashboardHandler db params = DashResponse.serverError e := by
  unfold dashboardHandler
  dsimp only
  split
  · next e2 heq =>
    rw [h] at heq
    injection heq with he
    rw [he]
  · next vulnRows heq =>
    rw [h] at heq
    cases heq

/-- The alerts of a response, when it is a 200. -/
def responseAlerts (r : DashResponse) : Option (List Alert) :=
  match r with
  | DashResponse.ok v => some v.alerts
  | DashResponse.serverError _ => none

/-- The score value of a response, when it is a 200. -/
def responseScoreValue (r : DashResponse) : Option Int :=
  match r with
  | DashResponse.ok v => some v.score.value
  | DashResponse.serverError _ => none

/-- The pipelineScores of a response, when it is a 200. -/
def responsePipelineScores (r : DashResponse) : Option (List PipelineScore) :=
  match r with
  | DashResponse.ok v => some v.pipelineScores
  | DashResponse.serverError _ => none

/-- The payload of a response, with a fallback for the 500 case. -/
def responseViewD (r : DashResponse) (d : DashView) : DashView :=
  match r with
  | DashResponse.ok v => v
  | DashResponse.serverError _ => d

/-- An inert default payload used only as the fallback of
responseViewD. -/
def emptyDashView : DashView :=
  { meta := { pipeline := none, severity := none, q := "", limit := none },
    score := computeScoreFromAlerts [] 0,
    pipelines := [], pipelineScores := [], timeline := [], vulns := [],
    fixes := [], anomalies := [], alerts := [], reportLinks := none }

/-- A report row with one critical and one low finding. -/
def rowCritLow : VulnRow :=
  { id := 7, pipeline := "p", run_id := "r",
    findings := some [{ severity := some "critical" }, { severity := some "low" }],
    created_at := 3 }

/-- The concrete dashboard database of the filter demonstration. -/
def dbC8 : DashDb :=
  { pipeline_runs := [{ pipeline_id := "p", run_id := "r", ts := 1, severity_score := 40 }],
    vuln_reports := [rowCritLow],
    anomaly_reports := [],
    fix_reports := none }

/-- The request filtering on critical severity. -/
def paramsCrit : DashParams := { severity := some "critical" }

/-- The same request with no severity parameter. -/
def paramsBase : DashParams := {}

/-- C8: on every 200 dashboard response the score is computed from the
severity-filtered alert list plus the anomaly count, the alerts are the
flattened list with the severity filter applied after extraction, and
pipelineScores is identical for two requests that differ only in the
severity parameter; on the concrete database, filtering on critical
changes both alerts and score while pipelineScores stays the same. -/
theorem c8_score_follows_filter_pipeline_scores_dont
    (db : DashDb) (params : DashParams) (s1 s2 : Option String) (v1 v2 : DashView)
    (h1 : dashboardHandler db { params with severity := s1 } = DashResponse.ok v1)
    (h2 : dashboardHandler db { params with severity := s2 } = DashResponse.ok v2) :
    v1.score = computeScoreFromAlerts v1.alerts
      (dashAnomalyCount db (dashPipeline params.pipeline)) ∧
    (∃ rows, queryVulnRowsDash db (dashPipeline params.pipeline) (dashQ params.q)
        (dashLimit params.limit) = Except.ok rows ∧
      v1.alerts = applySeverityFilter (dashSeverity s1) (vulnRowsToAlerts rows)) ∧
    v1.pipelineScores = v2.pipelineScores ∧
    responseAlerts (dashboardHandler dbC8 paramsCrit)
      ≠ responseAlerts (dashboardHandler dbC8 paramsBase) ∧
    responseScoreValue (dashboardHandler dbC8 paramsCrit)
      ≠ responseScoreValue (dashboardHandler dbC8 paramsBase) ∧
    responsePipelineScores (dashboardHandler dbC8 paramsCrit)
      = responsePipelineScores (dashboardHandler dbC8 paramsBase) := by
  have hc1 := dashboard_ok_components db { params with severity := s1 } v1 h1
  have hc2 := dashboard_ok_components db { params with severity := s2 } v2 h2
  refine ⟨hc1.1, hc1.2.1, ?_, by decide, by decide, by decide⟩
  rw [hc1.2.2, hc2.2.2]

/-- C8 (witness): instantiated on the concrete database, with the
critical filter against the unfiltered request. -/
theorem c8_witness :
    (responseViewD (dashboardHandler dbC8 paramsCrit) emptyDashView).score
      = computeScoreFromAlerts
        (responseViewD (dashboardHandler dbC8 paramsCrit) emptyDashView).alerts
        (dashAnomalyCount dbC8 (dashPipeline paramsBase.pipeline)) ∧
    (∃ rows, queryVulnRowsDash dbC8 (dashPipeline paramsBase.pipeline)
        (dashQ paramsBase.q) (dashLimit paramsBase.limit) = Except.ok rows ∧
      (responseViewD (dashboardHandler dbC8 paramsCrit) emptyDashView).alerts
        = applySeverityFilter (dashSeverity (some "critical")) (vulnRowsToAlerts rows)) ∧
    (responseViewD (dashboardHandler dbC8 paramsCrit) emptyDashView).pipelineScores
      = (responseViewD (dashboardHandler dbC8 paramsBase) emptyDashView).pipelineScores ∧
    responseAlerts (dashboardHandler dbC8 paramsCrit)
      ≠ responseAlerts (dashboardHandler dbC8 paramsBase) ∧
    responseScoreValue (dashboardHandler dbC8 paramsCrit)
      ≠ responseScoreValue (dashboardHandler dbC8 paramsBase) ∧
    responsePipelineScores (dashboardHandler dbC8 paramsCrit)
      = responsePipelineScores (dashboardHandler dbC8 paramsBase) :=
  c8_score_follows_filter_pipeline_scores_dont dbC8 paramsBase
    (some "critical") none
    (responseViewD (dashboardHandler dbC8 paramsCrit) emptyDashView)
    (responseViewD (dashboardHandler dbC8 paramsBase) emptyDashView)
    (by decide) (by decide)

/-- C9 (counterexample): the severity value with a leading space is
present, non-empty, distinct from "all", and case-insensitively
different from all four known severities, yet normSeverity trims it and
returns the critical filter instead of null. -/
theorem c9_counterexample :
    (" critical" ≠ "") ∧ (" critical" ≠ "all") ∧
    jsToLower " critical" ∉ (["critical", "high", "medium", "low"] : List String) ∧
    normSeverity " critical" = some "critical" ∧
    dashSeverity (some " critical") = some "critical" := by decide

/-- C9 (amended): for every request whose severity parameter is present,
non-empty, not exactly "all", and whose lower-cased and
whitespace-trimmed form is not one of critical, high, medium, low,
normSeverity returns null and the whole response equals the one of the
same request with no severity parameter; the request is neither
rejected nor emptied. -/
theorem c9_unrecognized_severity_is_ignored (db : DashDb) (params : DashParams)
    (s : String) (h : normSeverity s = none) :
    dashboardHandler db { params with severity := some s }
      = dashboardHandler db { params with severity := none } := by
  apply dashboardHandler_congr
  · rfl
  · show dashSeverity (some s) = dashSeverity none
    unfold dashSeverity
    by_cases h1 : s = ""
    · simp [h1]
    · by_cases h2 : s = "all"
      · simp [h1, h2]
      · simp [h1, h2, h]
  · rfl
  · rfl

/-- C9 (witness): a bogus severity value leaves the response unchanged. -/
theorem c9_witness :
    dashboardHandler dbC8 { paramsBase with severity := some "bogus" }
      = dashboardHandler dbC8 { paramsBase with severity := none } :=
  c9_unrecognized_severity_is_ignored dbC8 paramsBase "bogus" (by decide)

/-- C10: a present, non-empty limit string that does not parse as a
number becomes NaN, the NaN passes through the Math.max/Math.min clamp
unchanged (so there is no fallback to the default 20 and no 4xx
rejection, which the route does not even have), and the aggregation
fails as a whole with the catch-all 500 once the datastore rejects the
NaN limit parameter. -/
theorem c10_nan_limit_fails_with_500 (db : DashDb) (params : DashParams) (s : String)
    (hne : s ≠ "") (hnan : jsNumber s = none) :
    dashLimit (some s) = none ∧
    dashLimit (some s) ≠ some 20 ∧
    dashboardHandler db { params with limit := some s }
      = DashResponse.serverError "invalid input syntax for type bigint" := by
  have hl : dashLimit (some s) = none := by
    show jsMin (jsMax (if s = "" then some 20 else jsNumber s) (some 1)) (some 200) = none
    rw [if_neg hne, hnan]
    rfl
  refine ⟨hl, ?_, ?_⟩
  · rw [hl]
    intro hc
    cases hc
  · apply dashboardHandler_error
    show queryVulnRowsDash db _ _ (dashLimit (some s)) = _
    rw [hl]
    rfl

/-- C10 (witness): the limit string abc. -/
theorem c10_witness :
    dashLimit (some "abc") = none ∧
    dashLimit (some "abc") ≠ some 20 ∧
    dashboardHandler dbC8 { paramsBase with limit := some "abc" }
      = DashResponse.serverError "invalid input syntax for type bigint" :=
  c10_nan_limit_fails_with_500 dbC8 paramsBase "abc" (by decide) (by decide)
